import Mathlib

/-!
Verification of the CLO Indenture Validator's segmentation, adjudication and
aggregation layers against its natural-language specification.

The Python sources are shallowly embedded as executable Lean definitions:
strings are `String` (lists of characters, matching Python's per-character
slicing/indexing on the ASCII corpus the program handles), dictionaries are
association lists, and the `re` patterns that matter are hand-compiled into
character-level matchers with the same semantics on newline-free lines.
-/

namespace CLO

/-- Characters accepted by Python's regex class `\s` (ASCII range; the
documents processed here contain no non-ASCII whitespace). -/
def py_is_space (c : Char) : Bool :=
  c == ' ' || c == '\t' || c == '\n' || c == '\r' || c == '\x0b' || c == '\x0c'

/-- Python `str.strip()`: remove leading and trailing whitespace. -/
def py_strip (s : String) : String :=
  String.mk (((s.data.dropWhile py_is_space).reverse.dropWhile py_is_space).reverse)

/-- Python `str.lower()` (ASCII case mapping, which covers this corpus). -/
def py_lower (s : String) : String :=
  String.mk (s.data.map Char.toLower)

/-- Python `str.upper()` (ASCII case mapping, which covers this corpus). -/
def py_upper (s : String) : String :=
  String.mk (s.data.map Char.toUpper)

/-- Substring search on character lists: true when `needle` occurs
contiguously inside `hay`, the semantics of Python's `needle in hay`. -/
def is_sub (needle : List Char) : List Char → Bool
  | [] => needle.isPrefixOf ([] : List Char)
  | c :: t => needle.isPrefixOf (c :: t) || is_sub needle t

/-- Python `needle in hay` on strings. -/
def py_in (needle hay : String) : Bool :=
  is_sub needle.data hay.data

/-- Python `text.split('\n')`: split on every newline, keeping empty pieces;
the empty string yields `[""]`. -/
def py_split_nl_go : List Char → List Char → List String
  | [], acc => [String.mk acc.reverse]
  | '\n' :: rest, acc => String.mk acc.reverse :: py_split_nl_go rest []
  | c :: rest, acc => py_split_nl_go rest (c :: acc)

/-- Python `text.split('\n')`. -/
def py_split_nl (s : String) : List String :=
  py_split_nl_go s.data []

/-- Python `'\n'.join(lines)`. -/
def join_nl : List String → String
  | [] => ""
  | [l] => l
  | l :: rest => l ++ "\n" ++ join_nl rest

/-- Python slice `s[:n]` (per character, matching Python string slicing). -/
def py_slice_to (s : String) (n : Nat) : String :=
  String.mk (s.data.take n)

/-! ## The `section_header` pattern of `config/settings.py`

`REGEX_PATTERNS['section_header']` is
`^(?:SECTION|Article)\s+(\d+(?:\.\d+)*)\s*[-–—]\s*(.+?)$`
compiled with `re.IGNORECASE | re.MULTILINE` and applied by `re.match` to
single stripped lines (which contain no newline).  The matcher below is that
regex hand-compiled: keyword alternative, mandatory whitespace, a dotted
number with maximal munch (any shorter munch leaves a digit or dot where the
dash is required, so maximal munch is equivalent), optional whitespace, one
dash (hyphen, en dash or em dash), and a non-empty remainder whose first
character is matched by `.` (hence not a newline). -/

/-- Case-insensitively strips `pre` (given in lowercase) from the front of
`s`, returning the remainder on success. -/
def strip_ci (pre : List Char) (s : List Char) : Option (List Char) :=
  match pre, s with
  | [], rest => some rest
  | _ :: _, [] => none
  | p :: ps, c :: cs => if c.toLower == p then strip_ci ps cs else none

/-- One step of `(?:\.\d+)*` maximal munch with explicit fuel; every step
consumes at least two characters, so `fuel = length` never runs out. -/
def munch_dots_fuel : Nat → List Char → List Char
  | 0, r => r
  | f + 1, '.' :: c :: rest =>
      if c.isDigit then munch_dots_fuel f (rest.dropWhile Char.isDigit)
      else '.' :: c :: rest
  | _ + 1, r => r

/-- Consume `(?:\.\d+)*` greedily. -/
def munch_dots (r : List Char) : List Char :=
  munch_dots_fuel r.length r

/-- The character class `[-–—]` of the `section_header` pattern. -/
def is_dash_char (c : Char) : Bool :=
  c == '-' || c == '–' || c == '—'

/-- The part of the `section_header` regex after the SECTION/Article keyword:
`\s+(\d+(?:\.\d+)*)\s*[-–—]\s*(.+?)$`. -/
def match_after_keyword (r : List Char) : Bool :=
  match r with
  | [] => false
  | c :: _ =>
    if py_is_space c then
      match r.dropWhile py_is_space with
      | [] => false
      | d :: ds =>
        if d.isDigit then
          match (munch_dots (ds.dropWhile Char.isDigit)).dropWhile py_is_space with
          | [] => false
          | dash :: rest =>
            if is_dash_char dash then
              match rest with
              | [] => false
              | e :: _ => e != '\n'
            else false
        else false
    else false

/-- `re.match` of the compiled `section_header` pattern against a line, as
used by `DocumentProcessor._extract_until_next_section` (the line is stripped
by the caller and contains no newline). -/
def section_header_match (line : String) : Bool :=
  match strip_ci "section".data line.data with
  | some r => match_after_keyword r
  | none =>
    match strip_ci "article".data line.data with
    | some r => match_after_keyword r
    | none => false

/-! ## `src/document_processor.py` -/

/-- `DocumentProcessor.DEFAULT_MAX_SECTION_LINES` (line 24): maximum lines to
extract per section. -/
def DEFAULT_MAX_SECTION_LINES : Nat := 100

/-- The list of lines gathered by `DocumentProcessor._extract_until_next_section`
(lines 111-134): the header line `lines[0]`, then lines from `lines[1:max_lines]`
up to (excluding) the first one whose stripped form matches the
`section_header` pattern.  Callers always pass a non-empty slice `lines[i:]`;
on `[]` Python would raise `IndexError`, modelled here as the empty result. -/
def section_content_lines (lines : List String) (max_lines : Nat) : List String :=
  match lines with
  | [] => []
  | l0 :: rest =>
      l0 :: (rest.take (max_lines - 1)).takeWhile
        (fun line => !(section_header_match (py_strip line)))

/-- `DocumentProcessor._extract_until_next_section`: joins the gathered lines
with newlines.  The orchestrator's registry (`REGEX_PATTERNS`) always contains
`section_header`, so the `if pattern` guard is always taken. -/
def extract_until_next_section (lines : List String) (max_lines : Nat) : String :=
  join_nl (section_content_lines lines max_lines)

/-- The scanning loop of `DocumentProcessor._find_section` (lines 103-109):
first line containing the section name case-insensitively wins, and extraction
starts at that line with the default line budget (the Python default argument
`max_lines=None` resolves to `DEFAULT_MAX_SECTION_LINES`). -/
def find_section_from (section_name : String) : List String → Option String
  | [] => none
  | line :: rest =>
      if py_in (py_lower section_name) (py_lower line) then
        some (extract_until_next_section (line :: rest) DEFAULT_MAX_SECTION_LINES)
      else
        find_section_from section_name rest

/-- `DocumentProcessor._find_section` (lines 85-109), instantiated with the
`settings.py` registry, which always provides the `section_header` pattern, so
the early `return None` on a missing pattern never fires. -/
def find_section (text : String) (section_name : String) : Option String :=
  find_section_from section_name (py_split_nl text)

/-- `DocumentProcessor.extract_sections` (lines 62-83): the result dictionary
as an association list; section names that are not found are omitted (only a
warning is logged).  The section-name lists used by the orchestrator have no
duplicates, so dict insertion and association-list lookup agree. -/
def extract_sections (text : String) (section_names : List String) : List (String × String) :=
  section_names.filterMap
    (fun name => (find_section text name).map (fun content => (name, content)))

/-! ## `src/compliance_engine.py` -/

/-- The parsed result of `ComplianceEngine._parse_compliance_response`:
a dictionary with exactly the keys `status`, `explanation`, `excerpts`. -/
structure CheckResult where
  status : String
  explanation : String
  excerpts : String
deriving DecidableEq, Repr

/-- The explanation/excerpt extraction loop of
`ComplianceEngine._parse_compliance_response` (lines 136-141): for each line
(by index), a line containing `explanation` stores the following line (or the
empty string at the end of input) as the explanation, else a line containing
`excerpt` stores the following line as the excerpts; later lines overwrite. -/
def parse_extras (all_lines : List String) : String × String :=
  (List.range all_lines.length).foldl
    (fun acc i =>
      let line := all_lines.getD i ""
      if py_in "explanation" (py_lower line) then (all_lines.getD (i + 1) "", acc.2)
      else if py_in "excerpt" (py_lower line) then (acc.1, all_lines.getD (i + 1) "")
      else acc)
    ("", "")

/-- `ComplianceEngine._parse_compliance_response` (lines 113-143): status is
`PASS` when the uppercased response contains `PASS`, else `FAIL` when it
contains `FAIL`, else the initial `UNCLEAR`. -/
def parse_compliance_response (response : String) : CheckResult :=
  let status :=
    if py_in "PASS" (py_upper response) then "PASS"
    else if py_in "FAIL" (py_upper response) then "FAIL"
    else "UNCLEAR"
  let extras := parse_extras (py_split_nl response)
  { status := status, explanation := extras.1, excerpts := extras.2 }

/-- The canned response `_query_llm` returns when no API key is configured
(lines 87-91). -/
def mock_llm_response : String :=
  "\nCompliance Status: PASS\nExplanation: The document section contains appropriate provisions that meet the specified requirement.\nRelevant Excerpts: [Mock excerpt from document]\n"

/-- `ComplianceEngine._query_llm` (lines 73-111): without an API key the mock
response is returned; with one, the placeholder body of the `try` block
returns a fixed string (the real API call is commented out in the source).
The `except` handler is modelled separately by `query_llm_error`. -/
def query_llm (api_key : Option String) (_prompt : String) : String :=
  match api_key with
  | none => mock_llm_response
  | some _ => "Mock LLM response"

/-- The `except` handler of `_query_llm` (lines 109-111): a transport failure
with message `e` is swallowed and the string `"ERROR: " + e` is returned as
the response text. -/
def query_llm_error (e : String) : String :=
  "ERROR: " ++ e

/-- The fixed prompt template `PROMPT_TEMPLATES['compliance_check']` of
`config/settings.py`, split at its two `format` placeholders: the prompt is
`part1 + document_section + part2 + rule + part3`. -/
def compliance_check_part1 : String :=
  "\nYou are a CLO compliance expert. Analyze the following document section and determine if it complies with the given rule.\n\nDocument Section:\n"

/-- Middle segment of the compliance-check template, between the document
section and the rule. -/
def compliance_check_part2 : String :=
  "\n\nRule/Stipulation:\n"

/-- Trailing segment of the compliance-check template, after the rule. -/
def compliance_check_part3 : String :=
  "\n\nPlease provide:\n1. Compliance Status: PASS/FAIL/UNCLEAR\n2. Explanation: Brief reasoning for your determination\n3. Relevant Excerpts: Quote specific text from the document that supports your conclusion\n"

/-- `prompt_template.format(document_section=..., rule=...)` as performed by
`ComplianceEngine.check_compliance` (lines 60-63) with the fixed template. -/
def compliance_prompt (document_section rule : String) : String :=
  compliance_check_part1 ++ document_section ++ compliance_check_part2
    ++ rule ++ compliance_check_part3

/-- `ComplianceEngine.check_compliance` (lines 40-71): build the prompt, query
the LLM, parse the response.  The template argument is the fixed settings
constant, baked into `compliance_prompt`. -/
def check_compliance (api_key : Option String) (document_section rule : String) : CheckResult :=
  parse_compliance_response (query_llm api_key (compliance_prompt document_section rule))

/-- `ComplianceEngine.batch_check_compliance` (lines 145-168): one
`check_compliance` result per `(section, rule)` pair, in order. -/
def batch_check_compliance (api_key : Option String)
    (checks : List (String × String)) : List CheckResult :=
  checks.map (fun check => check_compliance api_key check.1 check.2)

/-! ## `src/data_loader.py` -/

/-- A stipulation record: a row dictionary whose relevant keys may each be
absent (`none` models a missing key).  `section_name` models the `'section'`
key (`section` is reserved in Lean). -/
structure Stip where
  id : Option String
  category : Option String
  description : Option String
  section_name : Option String
deriving DecidableEq, Repr

/-- `DataLoader.validate_stips_format` (lines 192-211): `false` as soon as any
record lacks any of the required fields `id`, `category`, `description`
(the early `return False` makes the loop a conjunction over all records). -/
def validate_stips_format (stips : List Stip) : Bool :=
  stips.all (fun stip =>
    stip.id.isSome && stip.category.isSome && stip.description.isSome)

/-- A verdict record as consumed by `DataLoader.create_summary_report`: only
the `status` key is inspected, and it may be absent. -/
structure VerdictRecord where
  status : Option String
deriving DecidableEq, Repr

/-- The summary dictionary produced by `DataLoader.create_summary_report`. -/
structure Summary where
  total_checks : Nat
  passed : Nat
  failed : Nat
  unclear : Nat
deriving DecidableEq, Repr

/-- `result.get('status', 'UNCLEAR').upper()` (line 245). -/
def summary_status (record : VerdictRecord) : String :=
  py_upper (record.status.getD "UNCLEAR")

/-- One iteration of the tally loop of `create_summary_report`
(lines 244-251). -/
def summary_step (s : Summary) (record : VerdictRecord) : Summary :=
  if summary_status record = "PASS" then { s with passed := s.passed + 1 }
  else if summary_status record = "FAIL" then { s with failed := s.failed + 1 }
  else { s with unclear := s.unclear + 1 }

/-- `DataLoader.create_summary_report` (lines 227-254): `total_checks` is set
to `len(results)` up front, then each record bumps exactly one counter. -/
def create_summary_report (results : List VerdictRecord) : Summary :=
  results.foldl summary_step
    { total_checks := results.length, passed := 0, failed := 0, unclear := 0 }

/-! ## `main.py` — `CLOComplianceOrchestrator` -/

/-- `DOCUMENT_SECTIONS` of `config/settings.py` (lines 33-42). -/
def DOCUMENT_SECTIONS : List String :=
  ["Definitions", "Covenants", "Events of Default", "Collateral",
   "Payment Priority", "Coverage Tests", "Concentration Limits",
   "Rating Requirements"]

/-- One row of the result list built by `run_compliance_check`
(main.py lines 122-128): the stipulation metadata merged with the parsed
check result. -/
structure StipResult where
  stip_id : String
  category : String
  description : String
  section_label : String
  status : String
  explanation : String
  excerpts : String
deriving DecidableEq, Repr

/-- The evidence text handed to the compliance engine for one stipulation
(main.py lines 110-112): the extracted section for the stipulation's
`'section'` key (defaulting to `DOCUMENT_SECTIONS[0]`), or — when that section
was not extracted — the fallback `document_text[:1000]`. -/
def evidence_for (sections : List (String × String)) (document_text : String)
    (stip : Stip) : String :=
  let section_name := stip.section_name.getD (DOCUMENT_SECTIONS.getD 0 "")
  (sections.lookup section_name).getD (py_slice_to document_text 1000)

/-- `CLOComplianceOrchestrator.run_compliance_check` (main.py lines 63-154),
parametrised by the loaded stipulation list and the text returned by the PDF
collaborator (both are external inputs).  Validation failure returns the
error dictionary (lines 88-90); otherwise every stipulation yields exactly
one result row, and the summary is computed from the rows' `status` values
(always present on a row, hence wrapped in `some`).  Report persistence is an
out-of-scope collaborator. -/
def run_compliance_check (api_key : Option String) (stips : List Stip)
    (document_text : String) : Except String (List StipResult × Summary) :=
  if validate_stips_format stips then
    let sections := extract_sections document_text DOCUMENT_SECTIONS
    let results := stips.map (fun stip =>
      let section_name := stip.section_name.getD (DOCUMENT_SECTIONS.getD 0 "")
      let check := check_compliance api_key (evidence_for sections document_text stip)
        (stip.description.getD "")
      { stip_id := stip.id.getD "", category := stip.category.getD "",
        description := stip.description.getD "", section_label := section_name,
        status := check.status, explanation := check.explanation,
        excerpts := check.excerpts : StipResult })
    Except.ok (results, create_summary_report
      (results.map (fun r => { status := some r.status })))
  else
    Except.error "Invalid stipulations format"

/-! ## Derived predicates and concrete inputs used in the theorems -/

/-- A record the tally loop counts as passed: uppercased status equals
`PASS`. -/
def is_pass_record (r : VerdictRecord) : Bool :=
  decide (summary_status r = "PASS")

/-- A record the tally loop counts as failed: uppercased status equals `FAIL`
(and is then automatically not `PASS`). -/
def is_fail_record (r : VerdictRecord) : Bool :=
  decide (summary_status r = "FAIL")

/-- A record the tally loop counts as unclear: uppercased status is neither
`PASS` nor `FAIL` (this includes an absent status, which defaults to
`UNCLEAR`). -/
def is_unclear_record (r : VerdictRecord) : Bool :=
  decide (summary_status r ≠ "PASS" ∧ summary_status r ≠ "FAIL")

/-- A document of 1001 identical characters: longer than the 1000-character
fallback slice and containing none of the `DOCUMENT_SECTIONS` names. -/
def c1_long_doc : String :=
  String.mk (List.replicate 1001 'a')

/-- A fully populated stipulation whose `'section'` key names a section that
is never a key of the extracted-sections dictionary. -/
def c1_stip : Stip :=
  { id := some "1", category := some "Coverage Test",
    description := some "OC Ratio must exceed 100 percent",
    section_name := some "Article 99" }

/-- A fully populated, valid stipulation record. -/
def c3_good_stip : Stip :=
  { id := some "1", category := some "Coverage Test",
    description := some "OC Ratio must exceed 100 percent",
    section_name := some "Article 5" }

/-- A stipulation record missing the required `category` field. -/
def c3_bad_stip : Stip :=
  { id := some "2", category := none,
    description := some "No single obligor exceeds 10 percent",
    section_name := none }

/-- An evidence span of 10001 characters — longer than every character
constant appearing in the source (the 1000-character fallback slice and the
2000 `max_tokens` response cap). -/
def c4_long_span : String :=
  String.mk (List.replicate 10001 'x')

/-! ## Helper lemmas -/

/-- Unfolding `String.append` to list append. -/
theorem data_append (s t : String) : (s ++ t).data = s.data ++ t.data := rfl

/-- `String.length` is the length of the character list. -/
theorem length_eq_data (s : String) : s.length = s.data.length := rfl

/-- The character list of a constructed string. -/
theorem data_mk (l : List Char) : (String.mk l).data = l := rfl

/-- Characterisation of the tally fold of `create_summary_report`: starting
from any accumulator, each counter grows by the number of records the
corresponding branch of `summary_step` accepts, and `total_checks` is
untouched by the loop. -/
theorem summary_foldl_spec (l : List VerdictRecord) (s : Summary) :
    l.foldl summary_step s =
      { total_checks := s.total_checks,
        passed := s.passed + l.countP is_pass_record,
        failed := s.failed + l.countP is_fail_record,
        unclear := s.unclear + l.countP is_unclear_record } := by
  induction l generalizing s with
  | nil => simp
  | cons r t ih =>
    rw [List.foldl_cons, ih]
    by_cases hp : summary_status r = "PASS"
    · have hf : ¬summary_status r = "FAIL" := by rw [hp]; decide
      simp [summary_step, hp, hf, is_pass_record, is_fail_record, is_unclear_record,
        List.countP_cons, Summary.mk.injEq]
      omega
    · by_cases hf : summary_status r = "FAIL"
      · simp [summary_step, hp, hf, is_pass_record, is_fail_record, is_unclear_record,
          List.countP_cons, Summary.mk.injEq]
        omega
      · simp [summary_step, hp, hf, is_pass_record, is_fail_record, is_unclear_record,
          List.countP_cons, Summary.mk.injEq]
        omega

/-- Every record is counted by exactly one of the three tally branches. -/
theorem countP_status_partition (l : List VerdictRecord) :
    l.countP is_pass_record + l.countP is_fail_record + l.countP is_unclear_record
      = l.length := by
  induction l with
  | nil => simp
  | cons r t ih =>
    by_cases hp : summary_status r = "PASS"
    · have hf : ¬summary_status r = "FAIL" := by rw [hp]; decide
      simp [List.countP_cons, is_pass_record, is_fail_record, is_unclear_record, hp, hf,
        List.length_cons]
      omega
    · by_cases hf : summary_status r = "FAIL"
      · simp [List.countP_cons, is_pass_record, is_fail_record, is_unclear_record, hp, hf,
          List.length_cons]
        omega
      · simp [List.countP_cons, is_pass_record, is_fail_record, is_unclear_record, hp, hf,
          List.length_cons]
        omega

/-- A key that is not among the requested section names is never a key of the
extracted-sections dictionary, whatever the document says. -/
theorem lookup_extract_sections_not_mem (text : String) (names : List String)
    (key : String) (h : key ∉ names) :
    (extract_sections text names).lookup key = none := by
  induction names with
  | nil => simp [extract_sections]
  | cons n t ih =>
    have hkey : key ≠ n := fun e => h (e ▸ List.mem_cons_self n t)
    have ht : key ∉ t := fun m => h (List.mem_cons_of_mem n m)
    have hbeq : (key == n) = false := beq_eq_false_iff_ne.mpr hkey
    rw [extract_sections, List.filterMap_cons]
    cases hf : find_section text n with
    | none =>
      exact ih ht
    | some c =>
      simp only [hf, List.lookup, hbeq]
      exact ih ht

/-- The gathered section never exceeds the line budget. -/
theorem section_content_lines_length_le (lines : List String) :
    (section_content_lines lines DEFAULT_MAX_SECTION_LINES).length
      ≤ DEFAULT_MAX_SECTION_LINES := by
  cases lines with
  | nil => simp [section_content_lines, DEFAULT_MAX_SECTION_LINES]
  | cons l0 rest =>
    rw [section_content_lines]
    simp only [List.length_cons]
    have h1 : ((rest.take (DEFAULT_MAX_SECTION_LINES - 1)).takeWhile
          (fun line => !(section_header_match (py_strip line)))).length
        ≤ (rest.take (DEFAULT_MAX_SECTION_LINES - 1)).length :=
      (List.takeWhile_prefix _).sublist.length_le
    have h2 : (rest.take (DEFAULT_MAX_SECTION_LINES - 1)).length
        ≤ DEFAULT_MAX_SECTION_LINES - 1 := by
      rw [List.length_take]; exact Nat.min_le_left _ _
    unfold DEFAULT_MAX_SECTION_LINES at h1 h2 ⊢
    omega

/-- No line after the header line of a gathered section matches the
`section_header` pattern. -/
theorem section_content_lines_no_header (lines : List String) :
    ∀ l ∈ (section_content_lines lines DEFAULT_MAX_SECTION_LINES).drop 1,
      section_header_match (py_strip l) = false := by
  cases lines with
  | nil => simp [section_content_lines]
  | cons l0 rest =>
    intro l hl
    rw [section_content_lines] at hl
    simp only [List.drop_succ_cons, List.drop_zero] at hl
    have := List.mem_takeWhile_imp hl
    simpa using this

/-- Any span the keyword-mode locator returns was produced by
`extract_until_next_section` with the default line budget, applied to some
suffix of the document's line list. -/
theorem find_section_from_shape (name : String) (lines : List String) (span : String)
    (h : find_section_from name lines = some span) :
    ∃ ls : List String,
      span = extract_until_next_section ls DEFAULT_MAX_SECTION_LINES := by
  induction lines with
  | nil => simp [find_section_from] at h
  | cons line rest ih =>
    rw [find_section_from] at h
    by_cases hc : py_in (py_lower name) (py_lower line) = true
    · rw [if_pos hc] at h
      exact ⟨line :: rest, (Option.some.injEq _ _ ▸ h).symm⟩
    · rw [if_neg hc] at h
      exact ih h

/-! ## Claim theorems -/

/-- Claim C1, counterexample: for a 1001-character document with no locatable
sections and a stipulation whose section is missing, the run completes
without aborting, but the evidence handed to the adjudicator is NOT the
entire document text — it is the truncated fallback `document_text[:1000]`,
so the claim as stated is false. -/
theorem c1_counterexample :
    evidence_for (extract_sections c1_long_doc DOCUMENT_SECTIONS) c1_long_doc c1_stip
      ≠ c1_long_doc ∧
    (∃ out, run_compliance_check none [c1_stip] c1_long_doc = Except.ok out) := by
  constructor
  · have hmiss : (extract_sections c1_long_doc DOCUMENT_SECTIONS).lookup "Article 99" = none :=
      lookup_extract_sections_not_mem _ _ _ (by decide)
    have he : evidence_for (extract_sections c1_long_doc DOCUMENT_SECTIONS) c1_long_doc c1_stip
        = py_slice_to c1_long_doc 1000 := by
      simp [evidence_for, c1_stip, hmiss]
    rw [he]
    intro hcontra
    have hlen : (py_slice_to c1_long_doc 1000).data.length = c1_long_doc.data.length := by
      rw [hcontra]
    have hmin : min 1000 1001 = 1000 := by omega
    simp only [py_slice_to, c1_long_doc, data_mk, List.take_replicate, hmin,
      List.length_replicate] at hlen
    omega
  · have hv : validate_stips_format [c1_stip] = true := by decide
    cases hr : run_compliance_check none [c1_stip] c1_long_doc with
    | ok out => exact ⟨out, rfl⟩
    | error e =>
      exfalso
      unfold run_compliance_check at hr
      rw [if_pos hv] at hr
      exact Except.noConfusion hr

/-- Claim C1, amended: for every document text and stipulation list passing
validation, the run does not abort (it returns a success result), and a
requirement whose section cannot be found in the extracted-sections mapping
receives as evidence the first 1000 characters of the document,
`document_text[:1000]` — which equals the whole document only when the
document has at most 1000 characters. -/
theorem c1_missing_section_fallback (api_key : Option String) (document_text : String)
    (stips : List Stip) (stip : Stip) (hv : validate_stips_format stips = true) :
    (∃ out, run_compliance_check api_key stips document_text = Except.ok out) ∧
    ((extract_sections document_text DOCUMENT_SECTIONS).lookup
        (stip.section_name.getD (DOCUMENT_SECTIONS.getD 0 "")) = none →
      evidence_for (extract_sections document_text DOCUMENT_SECTIONS) document_text stip
        = py_slice_to document_text 1000) := by
  constructor
  · cases hr : run_compliance_check api_key stips document_text with
    | ok out => exact ⟨out, rfl⟩
    | error e =>
      exfalso
      unfold run_compliance_check at hr
      rw [if_pos hv] at hr
      exact Except.noConfusion hr
  · intro hmiss
    simp only [evidence_for]
    rw [hmiss]
    rfl

/-- Witness for C1's amended theorem at a concrete input: a 3-character
document in which no section is found, and one valid stipulation. -/
theorem c1_missing_section_fallback_witness :
    validate_stips_format [c1_stip] = true ∧
    (∃ out, run_compliance_check none [c1_stip] "xyz" = Except.ok out) ∧
    evidence_for (extract_sections "xyz" DOCUMENT_SECTIONS) "xyz" c1_stip
      = py_slice_to "xyz" 1000 := by
  have h := c1_missing_section_fallback none "xyz" [c1_stip] c1_stip (by decide)
  exact ⟨by decide, h.1, h.2 (by decide)⟩

/-- Claim C2, counterexample: a caught transport failure produces the
response string `ERROR: Connection refused`, which parses to a verdict whose
status is `UNCLEAR` — not `ERROR` as the claim requires — and whose
explanation field is empty rather than carrying the failure description. -/
theorem c2_counterexample :
    (parse_compliance_response (query_llm_error "Connection refused")).status = "UNCLEAR" ∧
    (parse_compliance_response (query_llm_error "Connection refused")).status ≠ "ERROR" ∧
    (parse_compliance_response (query_llm_error "Connection refused")).explanation = "" := by
  exact ⟨by decide, by decide, by decide⟩

/-- Claim C2, amended: every oracle response containing neither `PASS` nor
`FAIL` (case-insensitively) — including the `ERROR: ...` string the caught
transport-failure handler returns — parses to a verdict with status
`UNCLEAR`; no exception escapes, and a batch always yields exactly one
result per check, so all remaining requirements are processed. -/
theorem c2_unparseable_response_unclear (response : String)
    (hp : py_in "PASS" (py_upper response) = false)
    (hf : py_in "FAIL" (py_upper response) = false) :
    (parse_compliance_response response).status = "UNCLEAR" ∧
    ∀ (api_key : Option String) (checks : List (String × String)),
      (batch_check_compliance api_key checks).length = checks.length := by
  refine ⟨by simp [parse_compliance_response, hp, hf], ?_⟩
  intro api_key checks
  simp [batch_check_compliance]

/-- Witness for C2's amended theorem at a concrete transport failure. -/
theorem c2_unparseable_response_unclear_witness :
    py_in "PASS" (py_upper (query_llm_error "request timed out")) = false ∧
    py_in "FAIL" (py_upper (query_llm_error "request timed out")) = false ∧
    (parse_compliance_response (query_llm_error "request timed out")).status = "UNCLEAR" ∧
    (batch_check_compliance (some "key") [("section text", "rule text")]).length = 1 := by
  have h := c2_unparseable_response_unclear (query_llm_error "request timed out")
    (by decide) (by decide)
  exact ⟨by decide, by decide, h.1, h.2 (some "key") [("section text", "rule text")]⟩

/-- Claim C3, counterexample: a stipulation list containing one valid record
and one record missing `category` makes `validate_stips_format` fail, and the
whole run aborts with the error dictionary — the malformed record is not
skipped, and no verdict is produced for the valid record. -/
theorem c3_counterexample :
    validate_stips_format [c3_good_stip, c3_bad_stip] = false ∧
    run_compliance_check none [c3_good_stip, c3_bad_stip] "Some document text"
      = Except.error "Invalid stipulations format" := by
  exact ⟨by decide, rfl⟩

/-- Claim C3, amended: a record missing the required `category` field is not
skipped — it is fatal: `validate_stips_format` returns false and the whole
run aborts with the error result before any requirement is processed, so no
verdicts at all are produced. -/
theorem c3_missing_field_aborts_run (api_key : Option String) (stips : List Stip)
    (document_text : String) (stip : Stip) (hmem : stip ∈ stips)
    (hcat : stip.category = none) :
    run_compliance_check api_key stips document_text
      = Except.error "Invalid stipulations format" := by
  have hv : validate_stips_format stips = false := by
    cases hb : validate_stips_format stips with
    | false => rfl
    | true =>
      exfalso
      rw [validate_stips_format] at hb
      have hall := List.all_eq_true.mp hb stip hmem
      rw [hcat] at hall
      simp at hall
  have hv' : ¬validate_stips_format stips = true := by
    rw [hv]
    exact Bool.false_ne_true
  unfold run_compliance_check
  rw [if_neg hv']

/-- Witness for C3's amended theorem at the concrete two-record list. -/
theorem c3_missing_field_aborts_run_witness :
    c3_bad_stip ∈ [c3_good_stip, c3_bad_stip] ∧
    run_compliance_check (some "key") [c3_good_stip, c3_bad_stip] "doc"
      = Except.error "Invalid stipulations format" :=
  ⟨by decide, c3_missing_field_aborts_run (some "key") _ "doc" c3_bad_stip (by decide) rfl⟩

/-- Claim C4, counterexample: an evidence span of 10001 characters — longer
than every character constant in the source (1000-character fallback slice,
2000 `max_tokens`) — appears in full inside the oracle prompt built by
`check_compliance`: no prefix truncation to any fixed budget is applied. -/
theorem c4_counterexample :
    List.IsInfix c4_long_span.data
      (compliance_prompt c4_long_span "No single obligor exceeds 10 percent").data ∧
    c4_long_span.length = 10001 := by
  constructor
  · exact ⟨compliance_check_part1.data,
      compliance_check_part2.data ++ "No single obligor exceeds 10 percent".data
        ++ compliance_check_part3.data,
      by simp only [compliance_prompt, data_append, List.append_assoc]⟩
  · simp only [c4_long_span, length_eq_data, data_mk, List.length_replicate]

/-- Claim C4, amended: `check_compliance` applies no truncation at all — the
full evidence span is interpolated verbatim into the prompt (it occurs as a
contiguous infix, and the prompt length is exactly the sum of the template
parts, the span and the rule).  The only prefix truncation in the pipeline is
the orchestrator's 1000-character fallback slice for missing sections. -/
theorem c4_prompt_embeds_full_span (document_section rule : String) :
    List.IsInfix document_section.data
      (compliance_prompt document_section rule).data ∧
    (compliance_prompt document_section rule).length =
      compliance_check_part1.length + document_section.length
        + compliance_check_part2.length + rule.length + compliance_check_part3.length := by
  constructor
  · exact ⟨compliance_check_part1.data,
      compliance_check_part2.data ++ rule.data ++ compliance_check_part3.data,
      by simp only [compliance_prompt, data_append, List.append_assoc]⟩
  · simp only [compliance_prompt, length_eq_data, data_append, List.length_append]

/-- Claim C5, counterexample: on the claim's document (headers without a dash
separator), the located span for category `Concentration Limitations` is the
whole remainder of the document: `Section 7.4 Eligibility` does not match the
`section_header` pattern (which requires a dash between number and title), so
the span does not end before the next section's header — it contains it. -/
theorem c5_counterexample :
    find_section
        "Section 7.3 Concentration Limitations\nlimit of 7.5%\nSection 7.4 Eligibility"
        "Concentration Limitations"
      = some "Section 7.3 Concentration Limitations\nlimit of 7.5%\nSection 7.4 Eligibility" ∧
    py_in "Section 7.4 Eligibility"
        "Section 7.3 Concentration Limitations\nlimit of 7.5%\nSection 7.4 Eligibility"
      = true := by
  exact ⟨by decide, by decide⟩

/-- Claim C5, amended: the span begins at `Section 7.3` as claimed, but it
ends strictly before the next section only when that section's header uses
the dash separator the `section_header` pattern requires, as in
`Section 7.4 - Eligibility`; with the claim's dashless header the span
extends through it. -/
theorem c5_dashed_header_bounds_span :
    find_section
        "Section 7.3 Concentration Limitations\nlimit of 7.5%\nSection 7.4 - Eligibility"
        "Concentration Limitations"
      = some "Section 7.3 Concentration Limitations\nlimit of 7.5%" := by
  decide

/-- Claim C6: for every list of verdict records the summary satisfies
`total_checks = length`, `total_checks = passed + failed + unclear`, and every
record whose (defaulted, uppercased) status is neither `PASS` nor `FAIL` —
including records with an absent or unknown status — is counted in `unclear`,
so no record is dropped. -/
theorem c6_summary_conservation (results : List VerdictRecord) :
    (create_summary_report results).total_checks = results.length ∧
    (create_summary_report results).total_checks =
      (create_summary_report results).passed + (create_summary_report results).failed
        + (create_summary_report results).unclear ∧
    (create_summary_report results).unclear = results.countP is_unclear_record := by
  rw [create_summary_report, summary_foldl_spec]
  refine ⟨rfl, ?_, by simp⟩
  have h := countP_status_partition results
  simp only [Nat.zero_add]
  omega

/-- Claim C7: the summary is invariant under permutation of the verdict list
(the aggregation is a commutative reduction). -/
theorem c7_summary_perm_invariant (l l2 : List VerdictRecord) (h : l.Perm l2) :
    create_summary_report l = create_summary_report l2 := by
  rw [create_summary_report, create_summary_report, summary_foldl_spec, summary_foldl_spec]
  rw [h.length_eq, h.countP_eq is_pass_record, h.countP_eq is_fail_record,
    h.countP_eq is_unclear_record]

/-- Witness for C7 at a concrete two-element list and its transposition. -/
theorem c7_summary_perm_invariant_witness :
    create_summary_report [{ status := some "PASS" }, { status := none }]
      = create_summary_report [{ status := none }, { status := some "PASS" }] :=
  c7_summary_perm_invariant _ _ (List.Perm.swap _ _ _)

/-- Claim C8: the section locator is a pure, deterministic function of
`(document_text, section_name)` — two calls with equal inputs return equal
spans (the embedded code reads only its arguments and the immutable compiled
pattern configuration). -/
theorem c8_locator_deterministic (text1 text2 name1 name2 : String)
    (ht : text1 = text2) (hn : name1 = name2) :
    find_section text1 name1 = find_section text2 name2 := by
  rw [ht, hn]

/-- Witness for C8 at a concrete repeated call. -/
theorem c8_locator_deterministic_witness :
    find_section "Covenants\nbody" "Covenants" = find_section "Covenants\nbody" "Covenants" :=
  c8_locator_deterministic _ _ _ _ rfl rfl

/-- Claim C9: in keyword mode, any span the locator returns is the join of a
gathered line list that contains at most `DEFAULT_MAX_SECTION_LINES` (100)
lines and in which no line after the matched keyword line matches the generic
`section_header` pattern — extraction stops at the first subsequent header or
at the line budget, whichever comes first. -/
theorem c9_keyword_mode_bounded (text section_name span : String)
    (h : find_section text section_name = some span) :
    ∃ content : List String,
      span = join_nl content ∧
      content.length ≤ DEFAULT_MAX_SECTION_LINES ∧
      ∀ l ∈ content.drop 1, section_header_match (py_strip l) = false := by
  rw [find_section] at h
  obtain ⟨ls, hls⟩ := find_section_from_shape _ _ _ h
  refine ⟨section_content_lines ls DEFAULT_MAX_SECTION_LINES, ?_,
    section_content_lines_length_le ls, section_content_lines_no_header ls⟩
  rw [hls, extract_until_next_section]

/-- Witness for C9 at a concrete document whose third line is a dashed
section header: the located span is bounded and header-free after its first
line. -/
theorem c9_keyword_mode_bounded_witness :
    find_section "Covenants\nbody line\nSECTION 2 - Next\nmore" "Covenants"
      = some "Covenants\nbody line" ∧
    (∃ content : List String,
      "Covenants\nbody line" = join_nl content ∧
      content.length ≤ DEFAULT_MAX_SECTION_LINES ∧
      ∀ l ∈ content.drop 1, section_header_match (py_strip l) = false) := by
  refine ⟨by decide, ?_⟩
  exact c9_keyword_mode_bounded "Covenants\nbody line\nSECTION 2 - Next\nmore"
    "Covenants" "Covenants\nbody line" (by decide)

/-- Claim C10: parsed status follows a fixed precedence over case-insensitive
substring containment — `PASS` whenever the response contains `PASS` (even if
it also contains `FAIL`), else `FAIL` whenever it contains `FAIL`, else
`UNCLEAR`; consequently the status is always one of exactly these three
values. -/
theorem c10_status_precedence (response : String) :
    ((parse_compliance_response response).status = "PASS"
        ↔ py_in "PASS" (py_upper response) = true) ∧
    ((parse_compliance_response response).status = "FAIL"
        ↔ (py_in "PASS" (py_upper response) = false
            ∧ py_in "FAIL" (py_upper response) = true)) ∧
    ((parse_compliance_response response).status = "PASS"
      ∨ (parse_compliance_response response).status = "FAIL"
      ∨ (parse_compliance_response response).status = "UNCLEAR") := by
  cases hp : py_in "PASS" (py_upper response) <;>
    cases hf : py_in "FAIL" (py_upper response) <;>
      simp [parse_compliance_response, hp, hf]

end CLO
